import Mathlib

/-!
Verification of the supabase edge function get-generated-content (index.ts).

The handler is embedded as a pure function: the HTTP request carries the
outcome of parsing its JSON body, the environment is the optional value of
the GOOGLE_AI_API_KEY variable, and the generative-model provider is an
abstract function from the composed prompt to either generated text or a
failure message. The response is a status, a body string and a header list,
together with the error log lines the handler emits.
-/

set_option maxRecDepth 8000

namespace TenantsVoice

/-- One chat turn as destructured on line 26 of index.ts: the sender and text
fields of a message object. -/
structure ChatMessage where
  sender : String
  text : String
deriving DecidableEq

/-- A JavaScript value occupying the actionKey field after the JSON body is
parsed and destructured (line 18). jundefined stands for an absent field. -/
inductive JVal where
  | jstr (s : String)
  | jundefined
  | jnull
  | jbool (b : Bool)
  | jnum (n : Int)
deriving DecidableEq

/-- String coercion of a JavaScript value as performed by a template literal,
used on line 47 in the unknown-action error message. -/
def JVal.coerceString : JVal → String
  | .jstr s => s
  | .jundefined => "undefined"
  | .jnull => "null"
  | .jbool true => "true"
  | .jbool false => "false"
  | .jnum n => toString n

/-- The chatHistory field: either a JavaScript array of messages, or some
non-array value on which calling map (line 26) throws; the thrown message is
carried abstractly. -/
inductive ChatHistoryVal where
  | arr (msgs : List ChatMessage)
  | notArr (errMsg : String)

/-- The two fields destructured from the request body on line 18. -/
structure RequestBody where
  actionKey : JVal
  chatHistory : ChatHistoryVal

/-- An inbound request: its method and the outcome of awaiting req.json()
(line 18); an error value carries the rejection message of the parse. -/
structure Request where
  method : String
  jsonBody : Except String RequestBody

/-- An HTTP response as built by the handler. -/
structure Response where
  status : Nat
  body : String
  headers : List (String × String)
deriving DecidableEq

/-- The response produced for a request together with the error log lines
written by console.error on line 76. -/
structure HandlerResult where
  response : Response
  errorLogs : List (String × String)
deriving DecidableEq

/-- corsHeaders constant, lines 5 to 8 of index.ts. -/
def corsHeaders : List (String × String) :=
  [("Access-Control-Allow-Origin", "*"),
   ("Access-Control-Allow-Headers", "authorization, x-client-info, apikey, content-type")]

/-- Hexadecimal digit character, lowercase, as used by JSON escapes. -/
def hexDigit (n : Nat) : Char :=
  if n < 10 then Char.ofNat (48 + n) else Char.ofNat (87 + n)

/-- Escape of a single character under JSON.stringify. -/
def jsonEscapeChar (c : Char) : String :=
  if c = '"' then "\\\""
  else if c = '\\' then "\\\\"
  else if c = '\n' then "\\n"
  else if c = '\r' then "\\r"
  else if c = '\t' then "\\t"
  else if c = '\x08' then "\\b"
  else if c = '\x0c' then "\\f"
  else if c.toNat < 32 then
    "\\u00" ++ String.singleton (hexDigit (c.toNat / 16)) ++ String.singleton (hexDigit (c.toNat % 16))
  else String.singleton c

/-- JSON string escaping under JSON.stringify. -/
def jsonEscape (s : String) : String :=
  String.join (s.toList.map jsonEscapeChar)

/-- JSON.stringify of a one-field object, as on lines 71 and 77. -/
def jsonStringify1 (key value : String) : String :=
  "\x7b\"" ++ jsonEscape key ++ "\":\"" ++ jsonEscape value ++ "\"\x7d"

/-- Line 26: chatHistory.map rendering each message and joining by newlines. -/
def conversationText (chatHistory : List ChatMessage) : String :=
  String.intercalate "\n" (chatHistory.map (fun m => m.sender ++ ": " ++ m.text))

/-- Lines 20 to 21: read GOOGLE_AI_API_KEY and throw when it is falsy, that
is, when the variable is unset or holds the empty string. -/
def getApiKey : Option String → Except String String
  | none => .error "Missing Google AI API Key"
  | some k => if k = "" then .error "Missing Google AI API Key" else .ok k

/-- Line 26 as a fallible step: mapping over a non-array value throws. -/
def buildTranscript : ChatHistoryVal → Except String String
  | .arr msgs => .ok (conversationText msgs)
  | .notArr errMsg => .error errMsg

/-- Lines 30 to 48: the switch on actionKey, a chain of strict equality
comparisons against the five case labels, throwing on the default case. -/
def resolveAction (actionKey : JVal) : Except String String :=
  if actionKey = .jstr "email_landlord" then
    .ok "Draft a polite but firm email to the landlord."
  else if actionKey = .jstr "dispute_message" then
    .ok "Draft a clear, factual dispute message for a tenancy deposit scheme."
  else if actionKey = .jstr "step_by_step_guide" then
    .ok "Create a simple, step-by-step guide on how to proceed."
  else if actionKey = .jstr "email_council" then
    .ok "Draft a formal email to the local council\x27s housing team."
  else if actionKey = .jstr "call_council" then
    .ok "Create a bullet-point list of key points for a phone call to the council."
  else
    .error ("Unknown action key: " ++ actionKey.coerceString)

/-- The template literal of lines 51 to 65 up to the first interpolation. -/
def promptPre : String :=
  "\n      You are an expert AI assistant providing drafting support to UK tenants.\n      Based on the following conversation history, your task is to generate a specific document.\n\n      Action Required: "

/-- The template literal between the two interpolations. -/
def promptMid : String :=
  "\n\n      Conversation History:\n      "

/-- The template literal after the second interpolation. -/
def promptPost : String :=
  "\n\n      Instructions:\n      1. Review the entire conversation to understand the user\x27s specific problem.\n      2. Generate the requested document with a professional and appropriate tone.\n      3. Use placeholders like \"[Your Name]\" or \"[Date]\" where needed.\n      4. IMPORTANT: Return ONLY the generated text. Do not add any conversational intros or summaries.\n    "

/-- Lines 51 to 65: the prompt template with actionDescription and
conversationText interpolated. -/
def mkPrompt (actionDescription transcript : String) : String :=
  promptPre ++ actionDescription ++ promptMid ++ transcript ++ promptPost

/-- The try block of lines 17 to 73 up to the provider call: parse outcome,
API key check, transcript building, action resolution, then one call of the
provider (generateContent followed by text extraction) on the prompt. -/
def tryBlock (jsonBody : Except String RequestBody) (googleApiKey : Option String)
    (provider : String → Except String String) : Except String String := do
  let body ← jsonBody
  let _key ← getApiKey googleApiKey
  let transcript ← buildTranscript body.chatHistory
  let actionDescription ← resolveAction body.actionKey
  provider (mkPrompt actionDescription transcript)

/-- The serve handler, lines 12 to 82: the OPTIONS short-circuit, then the
try block, whose success value is serialized on line 71 and whose thrown
message is logged and serialized with status 500 on lines 75 to 81. -/
def handle (req : Request) (googleApiKey : Option String)
    (provider : String → Except String String) : HandlerResult :=
  if req.method = "OPTIONS" then
    ⟨⟨200, "ok", corsHeaders⟩, []⟩
  else
    match tryBlock req.jsonBody googleApiKey provider with
    | .ok generatedText =>
        ⟨⟨200, jsonStringify1 "text" generatedText,
          corsHeaders ++ [("Content-Type", "application/json")]⟩, []⟩
    | .error msg =>
        ⟨⟨500, jsonStringify1 "error" msg,
          corsHeaders ++ [("Content-Type", "application/json")]⟩,
         [("Error in get-generated-content:", msg)]⟩

/-- Substring containment, used to state that composed strings embed their
parts. -/
def strContains (s sub : String) : Prop := ∃ a b, s = a ++ sub ++ b

/-- Right recursion for newline-separated joining: each later element is
preceded by the separator. Used to characterize String.intercalate. -/
def sepPrefixed (sep : String) : List String → String
  | [] => ""
  | a :: as => sep ++ a ++ sepPrefixed sep as

theorem strContains_self (s : String) : strContains s s :=
  ⟨"", "", by simp⟩

theorem strContains_append_left {s sub : String} (t : String) (h : strContains s sub) :
    strContains (s ++ t) sub := by
  obtain ⟨a, b, rfl⟩ := h
  exact ⟨a, b ++ t, by rw [String.append_assoc]⟩

theorem strContains_append_right {t sub : String} (s : String) (h : strContains t sub) :
    strContains (s ++ t) sub := by
  obtain ⟨a, b, rfl⟩ := h
  exact ⟨s ++ a, b, by simp [String.append_assoc]⟩

theorem intercalate_go_eq (sep : String) :
    ∀ (l : List String) (acc : String),
      String.intercalate.go acc sep l = acc ++ sepPrefixed sep l := by
  intro l
  induction l with
  | nil => intro acc; simp [String.intercalate.go, sepPrefixed]
  | cons b bs ih =>
      intro acc
      simp [String.intercalate.go, sepPrefixed, ih, String.append_assoc]

theorem intercalate_cons (sep a : String) (as : List String) :
    String.intercalate sep (a :: as) = a ++ sepPrefixed sep as := by
  simp [String.intercalate, intercalate_go_eq]

/-- C1: each of the five action keys resolves, by string equality, to exactly
the instruction text of the fixed table. -/
theorem c1_action_table :
    resolveAction (.jstr "email_landlord")
        = .ok "Draft a polite but firm email to the landlord." ∧
    resolveAction (.jstr "dispute_message")
        = .ok "Draft a clear, factual dispute message for a tenancy deposit scheme." ∧
    resolveAction (.jstr "step_by_step_guide")
        = .ok "Create a simple, step-by-step guide on how to proceed." ∧
    resolveAction (.jstr "email_council")
        = .ok "Draft a formal email to the local council\x27s housing team." ∧
    resolveAction (.jstr "call_council")
        = .ok "Create a bullet-point list of key points for a phone call to the council." :=
  ⟨rfl, rfl, rfl, rfl, rfl⟩

/-- C3: the transcript maps each message to sender, colon, space, text, and
joins the rendered lines with single newlines in input order; on the given
two-message history it produces exactly the expected string. -/
theorem c3_transcript :
    conversationText [⟨"user", "Hi"⟩, ⟨"bot", "Hello"⟩] = "user: Hi\nbot: Hello" ∧
    ∀ (m : ChatMessage) (rest : List ChatMessage),
      conversationText (m :: rest) =
        m.sender ++ ": " ++ m.text ++
          (if rest = [] then "" else "\n" ++ conversationText rest) := by
  refine ⟨by decide, ?_⟩
  intro m rest
  cases rest with
  | nil => simp [conversationText, intercalate_cons, sepPrefixed]
  | cons r t =>
      simp [conversationText, intercalate_cons, sepPrefixed, String.append_assoc]

/-- C4 counterexample: an OPTIONS request is answered with body "ok", not
with an empty body as claimed. -/
theorem c4_counterexample :
    (handle ⟨"OPTIONS", Except.error "ignored"⟩ none
        (fun _ => Except.ok "")).response.body ≠ "" := by
  decide

/-- C4 amended: every OPTIONS request, whatever its body, environment and
provider, is answered immediately with status 200, the two-character body
"ok" and exactly the two permissive cross-origin headers, with no logging
and no other processing. -/
theorem c4_options (jsonBody : Except String RequestBody)
    (googleApiKey : Option String) (provider : String → Except String String) :
    handle ⟨"OPTIONS", jsonBody⟩ googleApiKey provider =
      ⟨⟨200, "ok", corsHeaders⟩, []⟩ := rfl

/-- C2: with the API key present and an array chatHistory, any actionKey
string outside the five-entry table yields status 500 and an error body whose
message is the unknown-action text containing the literal key; in particular
the bogus key with empty history yields exactly the specified body. -/
theorem c2_unknown_action (s apiKey : String) (hist : List ChatMessage)
    (provider : String → Except String String)
    (hs : s ∉ (["email_landlord", "dispute_message", "step_by_step_guide",
                "email_council", "call_council"] : List String))
    (hk : apiKey ≠ "") :
    (handle ⟨"POST", .ok ⟨.jstr s, .arr hist⟩⟩ (some apiKey) provider).response.status = 500 ∧
    (handle ⟨"POST", .ok ⟨.jstr s, .arr hist⟩⟩ (some apiKey) provider).response.body
        = jsonStringify1 "error" ("Unknown action key: " ++ s) ∧
    strContains ("Unknown action key: " ++ s) s ∧
    (handle ⟨"POST", .ok ⟨.jstr "bogus", .arr []⟩⟩ (some apiKey) provider).response
        = ⟨500, "\x7b\"error\":\"Unknown action key: bogus\"\x7d",
           corsHeaders ++ [("Content-Type", "application/json")]⟩ := by
  have h1 : s ≠ "email_landlord" := fun h => hs (by simp [h])
  have h2 : s ≠ "dispute_message" := fun h => hs (by simp [h])
  have h3 : s ≠ "step_by_step_guide" := fun h => hs (by simp [h])
  have h4 : s ≠ "email_council" := fun h => hs (by simp [h])
  have h5 : s ≠ "call_council" := fun h => hs (by simp [h])
  have hres : resolveAction (.jstr s) = .error ("Unknown action key: " ++ s) := by
    simp [resolveAction, JVal.coerceString, h1, h2, h3, h4, h5]
  have htry : tryBlock (Except.ok ⟨.jstr s, .arr hist⟩) (some apiKey) provider
      = .error ("Unknown action key: " ++ s) := by
    simp [tryBlock, Bind.bind, Except.bind, getApiKey, hk, buildTranscript, hres]
  have htry2 : tryBlock (Except.ok ⟨.jstr "bogus", .arr []⟩) (some apiKey) provider
      = .error "Unknown action key: bogus" := by
    simp [tryBlock, Bind.bind, Except.bind, getApiKey, hk, buildTranscript, resolveAction,
      JVal.coerceString]
  refine ⟨?_, ?_, ⟨"Unknown action key: ", "", by simp⟩, ?_⟩
  · simp [handle, htry]
  · simp [handle, htry]
  · simp only [handle, htry2]
    decide

/-- C2 witness: the bogus action key with empty history, a present API key
and an unused provider produces the 500 unknown-action response. -/
theorem c2_unknown_action_witness :
    (handle ⟨"POST", .ok ⟨.jstr "bogus", .arr []⟩⟩ (some "key")
        (fun _ => Except.ok "t")).response
      = ⟨500, "\x7b\"error\":\"Unknown action key: bogus\"\x7d",
         corsHeaders ++ [("Content-Type", "application/json")]⟩ :=
  (c2_unknown_action "bogus" "key" [] (fun _ => Except.ok "t")
    (by decide) (by decide)).2.2.2

/-- C5: whenever the environment lacks the API key, any non-preflight request
with a successfully parsed body is answered with status 500 and the
missing-key error message, whatever actionKey and chatHistory it carries. -/
theorem c5_missing_key (method : String) (body : RequestBody)
    (provider : String → Except String String) (hm : method ≠ "OPTIONS") :
    handle ⟨method, .ok body⟩ none provider =
      ⟨⟨500, jsonStringify1 "error" "Missing Google AI API Key",
        corsHeaders ++ [("Content-Type", "application/json")]⟩,
       [("Error in get-generated-content:", "Missing Google AI API Key")]⟩ := by
  have htry : tryBlock (Except.ok body) none provider
      = .error "Missing Google AI API Key" := by
    simp [tryBlock, Bind.bind, Except.bind, getApiKey]
  simp [handle, hm, htry]

/-- C5 witness: a POST with a valid action key and one-message history is
answered with the missing-key 500 response when the key is unset. -/
theorem c5_missing_key_witness :
    handle ⟨"POST", .ok ⟨.jstr "email_landlord", .arr [⟨"user", "Hi"⟩]⟩⟩ none
        (fun _ => Except.ok "t") =
      ⟨⟨500, jsonStringify1 "error" "Missing Google AI API Key",
        corsHeaders ++ [("Content-Type", "application/json")]⟩,
       [("Error in get-generated-content:", "Missing Google AI API Key")]⟩ :=
  c5_missing_key "POST" ⟨.jstr "email_landlord", .arr [⟨"user", "Hi"⟩]⟩
    (fun _ => Except.ok "t") (by decide)

/-- C6: every failure of the try block on a non-preflight request, whatever
its message, is logged with the function name context and converted to the
uniform one-key error JSON body with status 500 under the two cross-origin
headers plus the JSON content type; no failure is distinguished by status. -/
theorem c6_uniform_error (req : Request) (googleApiKey : Option String)
    (provider : String → Except String String) (msg : String)
    (hm : req.method ≠ "OPTIONS")
    (he : tryBlock req.jsonBody googleApiKey provider = .error msg) :
    handle req googleApiKey provider =
      ⟨⟨500, jsonStringify1 "error" msg,
        corsHeaders ++ [("Content-Type", "application/json")]⟩,
       [("Error in get-generated-content:", msg)]⟩ := by
  simp [handle, hm, he]

/-- C6 witness: a request whose JSON body fails to parse is answered with the
uniform 500 error body carrying the parse message, and the message is
logged. -/
theorem c6_uniform_error_witness :
    handle ⟨"POST", Except.error "Unexpected end of JSON input"⟩ (some "key")
        (fun _ => Except.ok "t") =
      ⟨⟨500, jsonStringify1 "error" "Unexpected end of JSON input",
        corsHeaders ++ [("Content-Type", "application/json")]⟩,
       [("Error in get-generated-content:", "Unexpected end of JSON input")]⟩ :=
  c6_uniform_error ⟨"POST", Except.error "Unexpected end of JSON input"⟩ (some "key")
    (fun _ => Except.ok "t") "Unexpected end of JSON input" (by decide) rfl

theorem strContains_mkPrompt_pre {sub : String} (d t : String)
    (h : strContains promptPre sub) : strContains (mkPrompt d t) sub := by
  unfold mkPrompt
  exact strContains_append_left _ (strContains_append_left _
    (strContains_append_left _ (strContains_append_left _ h)))

theorem strContains_mkPrompt_desc (d t : String) : strContains (mkPrompt d t) d := by
  unfold mkPrompt
  exact strContains_append_left _ (strContains_append_left _
    (strContains_append_left _ (strContains_append_right _ (strContains_self d))))

theorem strContains_mkPrompt_transcript (d t : String) : strContains (mkPrompt d t) t := by
  unfold mkPrompt
  exact strContains_append_left _ (strContains_append_right _ (strContains_self t))

theorem strContains_mkPrompt_post {sub : String} (d t : String)
    (h : strContains promptPost sub) : strContains (mkPrompt d t) sub := by
  unfold mkPrompt
  exact strContains_append_right _ h

/-- C7: a successful run, with a parsed body, a resolvable action, a present
API key and a provider that returns text, is answered with status 200, the
one-key JSON body carrying exactly the generated text, the cross-origin
headers plus the JSON content type, and no error log. -/
theorem c7_success (method apiKey actionDescription generated : String) (key : JVal)
    (msgs : List ChatMessage) (provider : String → Except String String)
    (hm : method ≠ "OPTIONS") (hk : apiKey ≠ "")
    (hkey : resolveAction key = .ok actionDescription)
    (hp : provider (mkPrompt actionDescription (conversationText msgs)) = .ok generated) :
    handle ⟨method, .ok ⟨key, .arr msgs⟩⟩ (some apiKey) provider =
      ⟨⟨200, jsonStringify1 "text" generated,
        corsHeaders ++ [("Content-Type", "application/json")]⟩, []⟩ := by
  have htry : tryBlock (Except.ok ⟨key, .arr msgs⟩) (some apiKey) provider
      = .ok generated := by
    simp [tryBlock, Bind.bind, Except.bind, getApiKey, hk, buildTranscript, hkey, hp]
  simp [handle, hm, htry]

/-- C7 witness: the landlord-email action on an empty history with a provider
returning a fixed draft yields the 200 one-key text response. -/
theorem c7_success_witness :
    handle ⟨"POST", .ok ⟨.jstr "email_landlord", .arr []⟩⟩ (some "key")
        (fun _ => Except.ok "Dear landlord") =
      ⟨⟨200, jsonStringify1 "text" "Dear landlord",
        corsHeaders ++ [("Content-Type", "application/json")]⟩, []⟩ :=
  c7_success "POST" "key" "Draft a polite but firm email to the landlord."
    "Dear landlord" (.jstr "email_landlord") [] (fun _ => Except.ok "Dear landlord")
    (by decide) (by decide) rfl rfl

/-- C8: on a valid run the provider is called once on the composed prompt,
and that prompt embeds the fixed persona preamble, the resolved instruction,
the built transcript, and the four fixed formatting instructions. -/
theorem c8_prompt (key : JVal) (actionDescription apiKey : String)
    (msgs : List ChatMessage) (provider : String → Except String String)
    (hkey : resolveAction key = .ok actionDescription) (hk : apiKey ≠ "") :
    tryBlock (.ok ⟨key, .arr msgs⟩) (some apiKey) provider
        = provider (mkPrompt actionDescription (conversationText msgs)) ∧
    strContains (mkPrompt actionDescription (conversationText msgs))
        "expert AI assistant providing drafting support to UK tenants" ∧
    strContains (mkPrompt actionDescription (conversationText msgs)) actionDescription ∧
    strContains (mkPrompt actionDescription (conversationText msgs))
        (conversationText msgs) ∧
    strContains (mkPrompt actionDescription (conversationText msgs))
        "1. Review the entire conversation to understand the user\x27s specific problem." ∧
    strContains (mkPrompt actionDescription (conversationText msgs))
        "2. Generate the requested document with a professional and appropriate tone." ∧
    strContains (mkPrompt actionDescription (conversationText msgs))
        "3. Use placeholders like \"[Your Name]\" or \"[Date]\" where needed." ∧
    strContains (mkPrompt actionDescription (conversationText msgs))
        "4. IMPORTANT: Return ONLY the generated text. Do not add any conversational intros or summaries." := by
  refine ⟨?_, ?_, strContains_mkPrompt_desc _ _, strContains_mkPrompt_transcript _ _,
    ?_, ?_, ?_, ?_⟩
  · simp [tryBlock, Bind.bind, Except.bind, getApiKey, hk, buildTranscript, hkey]
  · exact strContains_mkPrompt_pre _ _
      ⟨"\n      You are an ",
       ".\n      Based on the following conversation history, your task is to generate a specific document.\n\n      Action Required: ", rfl⟩
  · exact strContains_mkPrompt_post _ _
      ⟨"\n\n      Instructions:\n      ",
       "\n      2. Generate the requested document with a professional and appropriate tone.\n      3. Use placeholders like \"[Your Name]\" or \"[Date]\" where needed.\n      4. IMPORTANT: Return ONLY the generated text. Do not add any conversational intros or summaries.\n    ", rfl⟩
  · exact strContains_mkPrompt_post _ _
      ⟨"\n\n      Instructions:\n      1. Review the entire conversation to understand the user\x27s specific problem.\n      ",
       "\n      3. Use placeholders like \"[Your Name]\" or \"[Date]\" where needed.\n      4. IMPORTANT: Return ONLY the generated text. Do not add any conversational intros or summaries.\n    ", rfl⟩
  · exact strContains_mkPrompt_post _ _
      ⟨"\n\n      Instructions:\n      1. Review the entire conversation to understand the user\x27s specific problem.\n      2. Generate the requested document with a professional and appropriate tone.\n      ",
       "\n      4. IMPORTANT: Return ONLY the generated text. Do not add any conversational intros or summaries.\n    ", rfl⟩
  · exact strContains_mkPrompt_post _ _
      ⟨"\n\n      Instructions:\n      1. Review the entire conversation to understand the user\x27s specific problem.\n      2. Generate the requested document with a professional and appropriate tone.\n      3. Use placeholders like \"[Your Name]\" or \"[Date]\" where needed.\n      ",
       "\n    ", rfl⟩

/-- C8 witness: with the call-council action resolved on a one-message
history, the try block reduces to the provider applied to the composed
prompt. -/
theorem c8_prompt_witness :
    tryBlock (.ok ⟨.jstr "call_council", .arr [⟨"user", "Hi"⟩]⟩) (some "key")
        (fun _ => Except.ok "x")
      = Except.ok "x" :=
  (c8_prompt (.jstr "call_council")
    "Create a bullet-point list of key points for a phone call to the council."
    "key" [⟨"user", "Hi"⟩] (fun _ => Except.ok "x") rfl (by decide)).1

/-- C9: with the key present and an array history, a request whose actionKey
field is absent or holds a non-string value falls through to the default
switch case: status 500 with the unknown-action message built from the
JavaScript string coercion of the value, in particular the text
undefined when the field is absent. -/
theorem c9_nonstring_action (v : JVal) (apiKey : String) (msgs : List ChatMessage)
    (provider : String → Except String String)
    (hk : apiKey ≠ "") (hv : ∀ s, v ≠ JVal.jstr s) :
    (handle ⟨"POST", .ok ⟨v, .arr msgs⟩⟩ (some apiKey) provider).response.status = 500 ∧
    (handle ⟨"POST", .ok ⟨v, .arr msgs⟩⟩ (some apiKey) provider).response.body
        = jsonStringify1 "error" ("Unknown action key: " ++ v.coerceString) ∧
    (handle ⟨"POST", .ok ⟨.jundefined, .arr msgs⟩⟩ (some apiKey) provider).response.body
        = "\x7b\"error\":\"Unknown action key: undefined\"\x7d" := by
  have hres : resolveAction v = .error ("Unknown action key: " ++ v.coerceString) := by
    simp [resolveAction, hv]
  have htry : tryBlock (Except.ok ⟨v, .arr msgs⟩) (some apiKey) provider
      = .error ("Unknown action key: " ++ v.coerceString) := by
    simp [tryBlock, Bind.bind, Except.bind, getApiKey, hk, buildTranscript, hres]
  have htry2 : tryBlock (Except.ok ⟨.jundefined, .arr msgs⟩) (some apiKey) provider
      = .error "Unknown action key: undefined" := by
    simp [tryBlock, Bind.bind, Except.bind, getApiKey, hk, buildTranscript,
      resolveAction, JVal.coerceString]
  refine ⟨?_, ?_, ?_⟩
  · simp [handle, htry]
  · simp [handle, htry]
  · simp only [handle, htry2]
    decide

/-- C9 witness: with the actionKey field absent the handler answers 500 with
the unknown-action message naming undefined. -/
theorem c9_nonstring_action_witness :
    (handle ⟨"POST", .ok ⟨.jundefined, .arr []⟩⟩ (some "key")
        (fun _ => Except.ok "t")).response.body
      = "\x7b\"error\":\"Unknown action key: undefined\"\x7d" :=
  (c9_nonstring_action .jundefined "key" [] (fun _ => Except.ok "t") (by decide)
    (fun _ h => JVal.noConfusion h)).2.2

/-- C10: the API key check precedes transcript building and action
resolution, so with the key unset every parsed request is answered with the
missing-key 500 error whatever its actionKey and chatHistory; and an empty
history is accepted, producing the empty transcript and proceeding to the
provider call. -/
theorem c10_key_check_first (body : RequestBody) (apiKey : String)
    (provider : String → Except String String) (hk : apiKey ≠ "") :
    (handle ⟨"POST", .ok body⟩ none provider).response.status = 500 ∧
    (handle ⟨"POST", .ok body⟩ none provider).response.body
        = jsonStringify1 "error" "Missing Google AI API Key" ∧
    conversationText [] = "" ∧
    tryBlock (.ok ⟨.jstr "email_landlord", .arr []⟩) (some apiKey) provider
        = provider (mkPrompt "Draft a polite but firm email to the landlord." "") := by
  have htry : tryBlock (Except.ok body) none provider
      = .error "Missing Google AI API Key" := by
    simp [tryBlock, Bind.bind, Except.bind, getApiKey]
  have hempty : conversationText [] = "" := rfl
  refine ⟨by simp [handle, htry], by simp [handle, htry], hempty, ?_⟩
  simp [tryBlock, Bind.bind, Except.bind, getApiKey, hk, buildTranscript,
    resolveAction, hempty]

/-- C10 witness: a request carrying both an absent actionKey and a non-array
chatHistory still gets the missing-key message when the key is unset, and the
empty history leads straight to the provider call. -/
theorem c10_key_check_first_witness :
    (handle ⟨"POST", .ok ⟨.jundefined, ChatHistoryVal.notArr "boom"⟩⟩ none
        (fun _ => Except.ok "x")).response.body
        = jsonStringify1 "error" "Missing Google AI API Key" ∧
    tryBlock (.ok ⟨.jstr "email_landlord", .arr []⟩) (some "key")
        (fun _ => Except.ok "x")
        = Except.ok "x" :=
  ⟨(c10_key_check_first ⟨.jundefined, .notArr "boom"⟩ "key"
      (fun _ => Except.ok "x") (by decide)).2.1,
   (c10_key_check_first ⟨.jundefined, .notArr "boom"⟩ "key"
      (fun _ => Except.ok "x") (by decide)).2.2.2⟩

end TenantsVoice
